import Mathlib

/-!
# Shallow embedding of `src/core/producer/transition/transition_producer.cpp`

This file embeds the transition producer of the repository
(`transition_producer::implementation`, lines 36-187 of
`src/core/producer/transition/transition_producer.cpp`) and proves the
frozen claims about it.

Modelling conventions:
* `double` arithmetic in the source (`alpha`, `volume`) is modelled with exact
  rationals (`ℚ`); for the values reachable here (`c ≤ D ≤ 65535`) the double
  computation `static_cast<int>(double(c)/double(D)*256.0)` agrees exactly with
  the rational floor `(256*c)/D`, because `256*c/D` is never within double
  rounding error of an integer unless it is one, and then all intermediate
  doubles are exact.
* `current_frame_` is declared `unsigned short` (line 183): increments are
  taken modulo `2^16 = 65536`.
* `short` audio samples are `Int`; the cast back to `short` after
  `(s*v) >> 8` is the wrap `toShort`, and `>> 8` on a (possibly negative)
  `int` is the arithmetic shift, i.e. flooring division by 256 (`Int.fdiv`).
* Child producers (`frame_producer_ptr`) are modelled as scripted state
  machines: each `render_frame` call pops the next scripted outcome
  (a frame, the exhausted sentinel `nullptr`, or a thrown exception).
  The `following`/`leading` links and the recorded `initialize` factory are
  explicit fields.  Null pointers are `Option`.
* `transition_info` is declared in a header that is not part of the sources;
  modelled from the spec: `type ∈ {cut, mix, slide, push, wipe}`,
  `direction ∈ {from_left, from_right}`, `duration ∈ ℕ` (the spec demands
  `ℕ⁺`; positivity is carried as a hypothesis where needed).
-/

/-- Texture-coordinate rectangle, `rectangle(left, top, right, bottom)`. -/
structure Rect where
  left : ℚ
  top : ℚ
  right : ℚ
  bottom : ℚ
deriving DecidableEq, Repr

/-- The attribute/payload content of one `gpu_frame`: alpha, translation,
texture coordinates, interleaved 16-bit audio samples, and an opaque image
payload identifier. -/
structure FrameData where
  alpha : ℚ
  tx : ℚ
  ty : ℚ
  tex : Rect
  audio : List Int
  payload : Nat
deriving DecidableEq, Repr

/-- Wrap an `int` to `short` range (two's complement), the effect of
`static_cast<short>`. -/
def toShort (x : Int) : Int :=
  (x + 32768) % 65536 - 32768

/-- One audio sample scaled by an integer volume:
`static_cast<short>((static_cast<int>(s)*volume)>>8)` (line 107). -/
def scaleSample (v : Int) (s : Int) : Int :=
  toShort (Int.fdiv (s * v) 256)

/-- Embeds `set_volume` (lines 101-108): every audio sample of the frame is scaled
in place by `volume`. -/
def set_volume (f : FrameData) (v : Int) : FrameData :=
  { f with audio := f.audio.map (scaleSample v) }

/-- A rendered frame: either a plain frame or a `gpu_composite_frame`
aggregating child frames back-to-front (lines 165-169). -/
inductive GpuFrame where
  | simple (d : FrameData)
  | composite (children : List FrameData)
deriving DecidableEq, Repr

/-- Embeds `transition_type` (modelled from the spec: the header is not in the
sources). -/
inductive TransitionType where
  | cut
  | mix
  | slide
  | push
  | wipe
deriving DecidableEq, Repr

/-- Embeds `transition_direction` (modelled from the spec). -/
inductive TransitionDirection where
  | from_left
  | from_right
deriving DecidableEq, Repr

/-- Embeds `transition_info`; `duration` is `ℕ` per the spec (`duration ∈ ℕ⁺`). -/
structure TransitionInfo where
  type : TransitionType
  direction : TransitionDirection
  duration : Nat
deriving DecidableEq, Repr

/-- One scripted outcome of a child producer's `render_frame`: a frame, the
exhausted sentinel (`nullptr`), or a thrown exception. -/
inductive RItem where
  | frame (f : FrameData)
  | exhaust
  | raise
deriving DecidableEq, Repr

/-- A child producer (`frame_producer_ptr` target): a script of outcomes, an
optional `following` producer, the factory it was last initialized with
(`none` = never), and the `leading` producer set on it (`none` = never). -/
inductive ChildProducer where
  | mk (script : List RItem) (following : Option ChildProducer)
      (initedWith : Option (Option Nat)) (leading : Option ChildProducer)

/-- Embeds lines 93-94, `following->initialize(factory_);
following->set_leading_producer(producer)`: record the factory and the leading link on a producer. -/
def setLink : ChildProducer → Option Nat → ChildProducer → ChildProducer
  | .mk s fol _ _, fac, lead => .mk s fol (some fac) (some lead)

/-- Length of the `following` chain of a producer; bounds the number of
auto-advances a single per-child `render_frame` call can make. -/
def chainLen : ChildProducer → Nat
  | .mk _ none _ _ => 0
  | .mk _ (some f) _ _ => chainLen f + 1

/-- Fuelled body of `transition_producer::implementation::render_frame
(frame_producer_ptr&)` (lines 72-99) on a non-null producer.  The result is
the frame (or `none`) and the final value of the by-reference `producer`
argument.  A `raise` outcome is the `catch`: the producer is set to null.
An exhausted outcome (`nullptr` frame) with a non-null `following` advances:
the following is initialized with the factory, given the exhausted producer
as leading, substituted, and rendering recurses (line 96).  The fuel is
always instantiated with `chainLen + 1`, which the advance loop (which
strictly descends the `following` chain) never exhausts, so the `fuel = 0`
default is unreachable. -/
def renderPF (fac : Option Nat) : Nat → ChildProducer → Option FrameData × Option ChildProducer
  | 0, p => (none, some p)
  | fuel + 1, .mk script fol i l =>
    match script, fol with
    | .raise :: _, _ => (none, none)
    | .frame f :: rest, fo => (some f, some (.mk rest fo i l))
    | .exhaust :: rest, none => (none, some (.mk rest none i l))
    | .exhaust :: rest, some f0 =>
        renderPF fac fuel (setLink f0 fac (.mk rest (some f0) i l))
    | [], none => (none, some (.mk [] none i l))
    | [], some f0 =>
        renderPF fac fuel (setLink f0 fac (.mk [] (some f0) i l))

/-- Embeds `render_frame(frame_producer_ptr&)` on a non-null producer. -/
def renderP (fac : Option Nat) (p : ChildProducer) : Option FrameData × Option ChildProducer :=
  renderPF fac (chainLen p + 1) p

/-- Embeds `render_frame(frame_producer_ptr&)` (lines 72-99) including the
null check of line 74. -/
def render_child (fac : Option Nat) : Option ChildProducer → Option FrameData × Option ChildProducer
  | none => (none, none)
  | some p => renderP fac p

/-- A producer scripted to return the same frame `f` on its next `n` calls,
with no following producer. -/
def constProd (f : FrameData) (n : Nat) : ChildProducer :=
  .mk (List.replicate n (.frame f)) none none none

/-- The integer volume `static_cast<int>(double(c)/double(D)*256.0)`
(line 119), i.e. `⌊256·c/D⌋` for the values reachable here. -/
def volume256 (c d : Nat) : Int :=
  ((256 * c) / d : Nat)

/-- The per-type/direction attribute updates of `compose` (lines 127-163),
applied after the audio scaling, on the dest frame and (for `push`) the
source frame.  The `cut` row is unreachable (line 112 returns earlier). -/
def applyTransform (info : TransitionInfo) (a : ℚ) (d : FrameData)
    (s : Option FrameData) : FrameData × Option FrameData :=
  match info.type, info.direction with
  | .cut, _ => (d, s)
  | .mix, _ => ({ d with alpha := a }, s)
  | .slide, .from_left => ({ d with tx := -1 + a, ty := 0 }, s)
  | .slide, .from_right => ({ d with tx := 1 - a, ty := 0 }, s)
  | .push, .from_left =>
      ({ d with tx := -1 + a, ty := 0 },
       s.map (fun x => { x with tx := 0 + a, ty := 0 }))
  | .push, .from_right =>
      ({ d with tx := 1 - a, ty := 0 },
       s.map (fun x => { x with tx := 0 - a, ty := 0 }))
  | .wipe, .from_left =>
      ({ d with tx := -1 + a, ty := 0, tex := ⟨-1 + a, 1, a, 0⟩ }, s)
  | .wipe, .from_right =>
      ({ d with tx := 1 - a, ty := 0, tex := ⟨1 - a, 1, 2 - a, 0⟩ }, s)

/-- Output of `compose`: the final (in-place mutated) states of the two input
frames, and the returned frame. -/
structure ComposeOut where
  destAfter : Option FrameData
  srcAfter : Option FrameData
  result : Option GpuFrame
deriving DecidableEq, Repr

/-- Embeds `compose(dest_frame, src_frame)` (lines 110-170), with `cur` the value of
`current_frame_` at the time of the call (i.e. after the increment of
line 57).  `cut` returns the source frame unchanged; otherwise a null dest
yields null; otherwise both frames' audio is scaled in place, the per-type
attributes are set in place, and a new composite aggregates source (back)
then dest (front). -/
def compose (info : TransitionInfo) (cur : Nat) (dest? src? : Option FrameData) : ComposeOut :=
  if info.type = .cut then ⟨dest?, src?, src?.map .simple⟩
  else
    match dest? with
    | none => ⟨none, src?, none⟩
    | some d =>
      let a : ℚ := (cur : ℚ) / (info.duration : ℚ)
      let v : Int := volume256 cur info.duration
      let d1 := set_volume d v
      let s1 := src?.map (fun x => set_volume x (256 - v))
      let ds := applyTransform info a d1 s1
      ⟨some ds.1, ds.2, some (.composite (ds.2.toList ++ [ds.1]))⟩

/-- The member state of `transition_producer::implementation` (lines 178-186):
the 16-bit frame counter, the transition info, the two child producers
(null-able), and the stored factory. -/
structure TransitionState where
  current_frame : Nat
  info : TransitionInfo
  dest : Option ChildProducer
  source : Option ChildProducer
  factory : Option Nat

/-- Everything one `render_frame()` call makes observable: the returned frame,
the frames obtained from the two children before composing, and the final
(post-mutation) states of those same frame objects. -/
structure RenderOut where
  result : Option GpuFrame
  destBefore : Option FrameData
  srcBefore : Option FrameData
  destAfter : Option FrameData
  srcAfter : Option FrameData

/-- Embeds `transition_producer::implementation::render_frame()`
(lines 55-70):
`current_frame_++ >= duration` returns the exhausted sentinel (the increment
happens in both branches and wraps at 2^16); otherwise both children are
rendered and the results composed with the post-increment counter. -/
def render_frame (s : TransitionState) : RenderOut × TransitionState :=
  if s.info.duration ≤ s.current_frame then
    (⟨none, none, none, none, none⟩,
     { s with current_frame := (s.current_frame + 1) % 65536 })
  else
    let rd := render_child s.factory s.dest
    let rs := render_child s.factory s.source
    let co := compose s.info ((s.current_frame + 1) % 65536) rd.1 rs.1
    (⟨co.result, rd.1, rs.1, co.destAfter, co.srcAfter⟩,
     ⟨(s.current_frame + 1) % 65536, s.info, rd.2, rs.2, s.factory⟩)

/-- The state transformer of one `render_frame()` call. -/
def stepT (s : TransitionState) : TransitionState :=
  (render_frame s).2

/-- Embeds `get_following_producer` (lines 45-48): returns the (current) dest
producer. -/
def get_following_producer (s : TransitionState) : Option ChildProducer :=
  s.dest

/-- Embeds `set_leading_producer` (lines 50-53). -/
def set_leading_producer (s : TransitionState) (p : Option ChildProducer) : TransitionState :=
  { s with source := p }

/-- Constructor error: `null_argument` / `InvalidArgument`. -/
inductive CtorError where
  | invalidArgument
deriving DecidableEq, Repr

/-- The constructor (lines 38-43): `current_frame_(0)`, stores `info` and
`dest`, throws iff `dest` is null.  `source` and `factory` start null. -/
def mkTransition (dest : Option ChildProducer) (info : TransitionInfo) :
    Except CtorError TransitionState :=
  match dest with
  | none => .error .invalidArgument
  | some d => .ok ⟨0, info, some d, none, none⟩

/-- A fresh transition state as produced by the constructor. -/
def initT (info : TransitionInfo) (dest source : Option ChildProducer)
    (fac : Option Nat) : TransitionState :=
  ⟨0, info, dest, source, fac⟩

/-! ## Sample frames and states used by witnesses and counterexamples -/

/-- A sample frame with one audio sample of value 100. -/
def fA : FrameData := ⟨1, 0, 0, ⟨0, 1, 1, 0⟩, [100], 1⟩

/-- A second sample frame, distinguished by its payload. -/
def fB : FrameData := ⟨1, 0, 0, ⟨0, 1, 1, 0⟩, [100], 2⟩

/-- A child producer with an empty script. -/
def emptyChild : ChildProducer := .mk [] none none none

/-! ## Helper lemmas -/

/-- A `constProd` with at least one scripted frame renders that frame and
keeps itself (minus the consumed item) as the producer. -/
theorem renderP_const (fac : Option Nat) (f : FrameData) (t : Nat) :
    renderP fac (constProd f (t + 1)) = (some f, some (constProd f t)) := rfl

/-- When the counter has reached the duration, `render_frame` returns the
exhausted sentinel and only bumps the (wrapping) counter. -/
theorem render_frame_exhausted (s : TransitionState)
    (h : s.info.duration ≤ s.current_frame) :
    render_frame s = (⟨none, none, none, none, none⟩,
      { s with current_frame := (s.current_frame + 1) % 65536 }) := by
  unfold render_frame
  rw [if_pos h]

/-- The active branch of `render_frame`, fully zeta-expanded. -/
theorem render_frame_active (s : TransitionState)
    (h : s.current_frame < s.info.duration) :
    render_frame s =
      (⟨(compose s.info ((s.current_frame + 1) % 65536)
            (render_child s.factory s.dest).1 (render_child s.factory s.source).1).result,
        (render_child s.factory s.dest).1,
        (render_child s.factory s.source).1,
        (compose s.info ((s.current_frame + 1) % 65536)
            (render_child s.factory s.dest).1 (render_child s.factory s.source).1).destAfter,
        (compose s.info ((s.current_frame + 1) % 65536)
            (render_child s.factory s.dest).1 (render_child s.factory s.source).1).srcAfter⟩,
       ⟨(s.current_frame + 1) % 65536, s.info,
        (render_child s.factory s.dest).2, (render_child s.factory s.source).2,
        s.factory⟩) := by
  unfold render_frame
  rw [if_neg (Nat.not_le.mpr h)]

/-- The map `applyTransform` never materializes a source frame out of nothing. -/
theorem applyTransform_src_none (info : TransitionInfo) (a : ℚ) (d : FrameData) :
    (applyTransform info a d none).2 = none := by
  cases h : info.type <;> cases hd : info.direction <;> simp [applyTransform, h, hd]

/-- The map `applyTransform` never drops a present source frame. -/
theorem applyTransform_src_some (info : TransitionInfo) (a : ℚ) (d x : FrameData) :
    ∃ y, (applyTransform info a d (some x)).2 = some y := by
  cases h : info.type <;> cases hd : info.direction <;> simp [applyTransform, h, hd]

/-- While exhausted and below the wrap point, iterating `render_frame` only
advances the counter. -/
theorem iterate_exhausted :
    ∀ (m : Nat) (s : TransitionState), s.info.duration ≤ s.current_frame →
      s.current_frame + m < 65536 →
      stepT^[m] s = { s with current_frame := s.current_frame + m }
  | 0, s, _, _ => by simp
  | m + 1, s, hd, hm => by
    rw [Function.iterate_succ_apply]
    have h1 : stepT s = { s with current_frame := s.current_frame + 1 } := by
      unfold stepT
      rw [render_frame_exhausted s hd, Nat.mod_eq_of_lt (by omega)]
    rw [h1, iterate_exhausted m { s with current_frame := s.current_frame + 1 }
      (show s.info.duration ≤ s.current_frame + 1 by omega)
      (show s.current_frame + 1 + m < 65536 by omega)]
    congr 1
    show s.current_frame + 1 + m = s.current_frame + (m + 1)
    omega

/-- Running `k` successful calls from a fresh state over constant children:
the counter becomes `k % 65536` and each child consumed `k` scripted
frames. -/
theorem run_const (i : TransitionInfo) (f g : FrameData) (fac : Option Nat) (n m : Nat) :
    ∀ k, k ≤ n → k ≤ m → (∀ j, j < k → j % 65536 < i.duration) →
    stepT^[k] (initT i (some (constProd f n)) (some (constProd g m)) fac)
      = ⟨k % 65536, i, some (constProd f (n - k)), some (constProd g (m - k)), fac⟩
  | 0, _, _, _ => by simp [initT]
  | k + 1, hn, hm, hj => by
    rw [Function.iterate_succ_apply',
      run_const i f g fac n m k (by omega) (by omega) (fun j hjk => hj j (by omega))]
    have hk : k % 65536 < i.duration := hj k (by omega)
    have hnf : n - k = (n - (k + 1)) + 1 := by omega
    have hmf : m - k = (m - (k + 1)) + 1 := by omega
    unfold stepT
    rw [render_frame_active _ (by simpa using hk)]
    simp only [hnf, hmf, render_child, renderP_const]
    congr 1
    exact Nat.mod_add_mod k 65536 1 ▸ rfl

/-! ## C2: construction guard -/

/-- C2 (counterexample): constructing with a non-absent dest and
`duration = 0` succeeds, contradicting the claim that duration 0 raises
`InvalidArgument`. -/
theorem C2_cex :
    mkTransition (some emptyChild) ⟨.mix, .from_left, 0⟩
      = .ok ⟨0, ⟨.mix, .from_left, 0⟩, some emptyChild, none, none⟩ := rfl

/-- C2 (amended): constructing a transition producer raises `InvalidArgument`
if and only if `dest` is absent; `duration` is not validated. -/
theorem C2_thm (dest : Option ChildProducer) (info : TransitionInfo) :
    mkTransition dest info = .error .invalidArgument ↔ dest = none := by
  cases dest <;> simp [mkTransition]

/-! ## C7: compositing mutates the input frames -/

/-- The first call of a mix transition of duration 2 over constant children:
used to exhibit the in-place mutation of the dest frame. -/
def mutEx : TransitionState :=
  initT ⟨.mix, .from_left, 2⟩ (some (constProd fA 1)) (some (constProd fB 1)) none

/-- C7 (counterexample): on a mix render the frame obtained from the dest
child is modified by the call (its alpha and audio change), refuting
"the input frames are unchanged after the call". -/
theorem C7_cex :
    (render_frame mutEx).1.destAfter ≠ (render_frame mutEx).1.destBefore := by
  have h1 : (render_frame mutEx).1.destAfter
      = some ⟨(1 : ℚ)/2, 0, 0, ⟨0, 1, 1, 0⟩, [50], 1⟩ := rfl
  have h2 : (render_frame mutEx).1.destBefore = some fA := rfl
  rw [h1, h2]
  simp only [fA, ne_eq, Option.some.injEq, FrameData.mk.injEq]
  intro h
  exact absurd h.1 (by norm_num)

/-- C7 (amended): compositing is mutating, not copying: for a `cut` call the
source frame itself is returned unchanged (no new frame), and for a non-cut
call the returned composite aggregates the post-mutation states of the very
frames obtained from the children (the composite wrapper alone is new). -/
theorem C7_thm (s : TransitionState) (ha : s.current_frame < s.info.duration) :
    (s.info.type = .cut →
      (render_frame s).1.destAfter = (render_frame s).1.destBefore
      ∧ (render_frame s).1.srcAfter = (render_frame s).1.srcBefore
      ∧ (render_frame s).1.result = ((render_frame s).1.srcBefore).map .simple)
    ∧ (s.info.type ≠ .cut → ∀ d, (render_child s.factory s.dest).1 = some d →
      ∃ d', (render_frame s).1.destAfter = some d'
        ∧ (render_frame s).1.result
            = some (.composite ((((render_frame s).1.srcAfter)).toList ++ [d']))) := by
  rw [render_frame_active s ha]
  constructor
  · intro hcut
    simp [compose, hcut]
  · intro hnc d hd
    rw [hd]
    simp only [compose, if_neg hnc]
    exact ⟨_, rfl, rfl⟩

/-- C7 (witness): the amended theorem applied to the concrete mix state. -/
theorem C7_wit :
    ∃ d', (render_frame mutEx).1.destAfter = some d'
      ∧ (render_frame mutEx).1.result
          = some (.composite ((((render_frame mutEx).1.srcAfter)).toList ++ [d'])) :=
  (C7_thm mutEx (show (0 : Nat) < 2 by omega)).2
    (show TransitionType.mix ≠ TransitionType.cut by simp) fA rfl

/-! ## C1: mix progress values -/

/-- C1 (counterexample): first call (k = 0) of a mix of duration 2.  The
claim predicts dest alpha `0/2 = 0`, dest audio scaled by volume 0 (sample
100 becomes 0) and source audio scaled by 256 (sample 100 stays 100); the
code produces alpha `1/2` and both samples scaled by 128 (100 becomes 50). -/
theorem C1_cex :
    (render_frame (initT ⟨.mix, .from_left, 2⟩
        (some (constProd fA 1)) (some (constProd fB 1)) none)).1.result
      = some (.composite [⟨1, 0, 0, ⟨0, 1, 1, 0⟩, [50], 2⟩,
                          ⟨(1 : ℚ)/2, 0, 0, ⟨0, 1, 1, 0⟩, [50], 1⟩])
    ∧ (1 : ℚ)/2 ≠ 0 ∧ (50 : ℤ) ≠ 0 ∧ (50 : ℤ) ≠ 100 :=
  ⟨rfl, by norm_num, by norm_num, by norm_num⟩

/-- C1 (amended): on the k-th successful `render_frame` call of a mix
transition (0-indexed, k < D ≤ 65535) whose children both return frames, the
counter is incremented before composing, so the alpha set on the dest frame
is `(k+1)/D`, the integer volume applied to the dest audio is
`⌊256·(k+1)/D⌋`, and the source audio volume is `256` minus that. -/
theorem C1_thm (D k n m : Nat) (f g : FrameData) (dir : TransitionDirection)
    (fac : Option Nat) (hkD : k < D) (hD : D ≤ 65535) (hkn : k < n) (hkm : k < m) :
    (render_frame (stepT^[k]
        (initT ⟨.mix, dir, D⟩ (some (constProd f n)) (some (constProd g m)) fac))).1.result
      = some (.composite
          [set_volume g (256 - volume256 (k + 1) D),
           { set_volume f (volume256 (k + 1) D) with alpha := ((k + 1 : ℕ) : ℚ) / ((D : ℕ) : ℚ) }]) := by
  rw [run_const ⟨.mix, dir, D⟩ f g fac n m k (by omega) (by omega)
    (fun j hj => by rw [Nat.mod_eq_of_lt (show j < 65536 by omega)]; show j < D; omega)]
  rw [render_frame_active _ (show k % 65536 < D by rw [Nat.mod_eq_of_lt (by omega)]; omega)]
  rw [show n - k = (n - k - 1) + 1 by omega, show m - k = (m - k - 1) + 1 by omega]
  simp only [render_child, renderP_const]
  rw [show (k % 65536 + 1) % 65536 = k + 1 by
    rw [Nat.mod_eq_of_lt (show k < 65536 by omega), Nat.mod_eq_of_lt (by omega)]]
  simp [compose, applyTransform]

/-- C1 (witness): the amended theorem at `D = 2`, `k = 0`. -/
theorem C1_wit :
    (render_frame (stepT^[0]
        (initT ⟨.mix, .from_left, 2⟩ (some (constProd fA 1)) (some (constProd fB 1)) none))).1.result
      = some (.composite
          [set_volume fB (256 - volume256 (0 + 1) 2),
           { set_volume fA (volume256 (0 + 1) 2) with alpha := ((0 + 1 : ℕ) : ℚ) / ((2 : ℕ) : ℚ) }]) :=
  C1_thm 2 0 1 1 fA fB .from_left none (by omega) (by omega) (by omega) (by omega)

/-! ## C6: slide from_left translation -/

/-- C6 (counterexample): first call (k = 0) of a slide-from-left of
duration 2.  The claim predicts dest translation `(-1 + 0/2, 0) = (-1, 0)`;
the code produces `(-1 + 1/2, 0) = (-1/2, 0)`. -/
theorem C6_cex :
    (render_frame (initT ⟨.slide, .from_left, 2⟩
        (some (constProd fA 1)) (some (constProd fB 1)) none)).1.result
      = some (.composite [⟨1, 0, 0, ⟨0, 1, 1, 0⟩, [50], 2⟩,
                          ⟨1, -1 + (1 : ℚ)/2, 0, ⟨0, 1, 1, 0⟩, [50], 1⟩])
    ∧ -1 + (1 : ℚ)/2 ≠ -1 :=
  ⟨rfl, by norm_num⟩

/-- C6 (amended): on the k-th successful call of a slide-from-left transition
(k < D ≤ 65535) whose children both return frames, the dest frame's
translation is set to `(-1 + (k+1)/D, 0)` and the source frame's translation
is not touched (it keeps the child frame's translation, `(0,0)` by
default). -/
theorem C6_thm (D k n m : Nat) (f g : FrameData) (fac : Option Nat)
    (hkD : k < D) (hD : D ≤ 65535) (hkn : k < n) (hkm : k < m) :
    (render_frame (stepT^[k]
        (initT ⟨.slide, .from_left, D⟩ (some (constProd f n)) (some (constProd g m)) fac))).1.result
      = some (.composite
          [set_volume g (256 - volume256 (k + 1) D),
           { set_volume f (volume256 (k + 1) D) with
              tx := -1 + ((k + 1 : ℕ) : ℚ) / ((D : ℕ) : ℚ), ty := 0 }]) := by
  rw [run_const ⟨.slide, .from_left, D⟩ f g fac n m k (by omega) (by omega)
    (fun j hj => by rw [Nat.mod_eq_of_lt (show j < 65536 by omega)]; show j < D; omega)]
  rw [render_frame_active _ (show k % 65536 < D by rw [Nat.mod_eq_of_lt (by omega)]; omega)]
  rw [show n - k = (n - k - 1) + 1 by omega, show m - k = (m - k - 1) + 1 by omega]
  simp only [render_child, renderP_const]
  rw [show (k % 65536 + 1) % 65536 = k + 1 by
    rw [Nat.mod_eq_of_lt (show k < 65536 by omega), Nat.mod_eq_of_lt (by omega)]]
  simp [compose, applyTransform]

/-- C6 (witness): the amended theorem at `D = 2`, `k = 0`. -/
theorem C6_wit :
    (render_frame (stepT^[0]
        (initT ⟨.slide, .from_left, 2⟩ (some (constProd fA 1)) (some (constProd fB 1)) none))).1.result
      = some (.composite
          [set_volume fB (256 - volume256 (0 + 1) 2),
           { set_volume fA (volume256 (0 + 1) 2) with
              tx := -1 + ((0 + 1 : ℕ) : ℚ) / ((2 : ℕ) : ℚ), ty := 0 }]) :=
  C6_thm 2 0 1 1 fA fB none (by omega) (by omega) (by omega) (by omega)

/-! ## C5: cut behaviour -/

/-- C5 (counterexample): a cut transition of duration 2 does not exhaust
after emitting one frame: the second `render_frame` call again returns the
source child's frame rather than the exhausted sentinel. -/
theorem C5_cex :
    (render_frame (stepT (initT ⟨.cut, .from_left, 2⟩
        (some (constProd fA 2)) (some (constProd fB 2)) none))).1.result
      = some (.simple fB)
    ∧ some (GpuFrame.simple fB) ≠ none :=
  ⟨rfl, by simp⟩

/-- C5 (amended): a cut transition with duration D returns the source
child's frame unchanged (dest discarded, no audio scaling) on each of its
first D calls — so "exactly one frame" holds only for D = 1 — returns
absent whenever the source is absent, and exhausts on call D (0-indexed). -/
theorem C5_thm (D k n m : Nat) (f g : FrameData) (dir : TransitionDirection)
    (fac : Option Nat) (hkD : k < D) (hD : D ≤ 65535) (hkn : k < n) (hkm : k < m) :
    (render_frame (stepT^[k]
        (initT ⟨.cut, dir, D⟩ (some (constProd f n)) (some (constProd g m)) fac))).1.result
      = some (.simple g)
    ∧ (∀ s : TransitionState, s.info.type = .cut → s.source = none →
        (render_frame s).1.result = none)
    ∧ (∀ n' m' : Nat, D ≤ n' → D ≤ m' →
        (render_frame (stepT^[D]
            (initT ⟨.cut, dir, D⟩ (some (constProd f n')) (some (constProd g m')) fac))).1.result
          = none) := by
  refine ⟨?_, ?_, ?_⟩
  · rw [run_const ⟨.cut, dir, D⟩ f g fac n m k (by omega) (by omega)
      (fun j hj => by rw [Nat.mod_eq_of_lt (show j < 65536 by omega)]; show j < D; omega)]
    rw [render_frame_active _ (show k % 65536 < D by rw [Nat.mod_eq_of_lt (by omega)]; omega)]
    rw [show m - k = (m - k - 1) + 1 by omega]
    simp only [render_child, renderP_const]
    simp [compose]
  · intro s hcut hsrc
    by_cases h : s.info.duration ≤ s.current_frame
    · rw [render_frame_exhausted s h]
    · rw [render_frame_active s (by omega)]
      rw [hsrc]
      simp [compose, hcut, render_child]
  · intro n' m' hn' hm'
    rw [run_const ⟨.cut, dir, D⟩ f g fac n' m' D (by omega) (by omega)
      (fun j hj => by rw [Nat.mod_eq_of_lt (show j < 65536 by omega)]; show j < D; omega)]
    rw [render_frame_exhausted _ (show D ≤ D % 65536 by
      rw [Nat.mod_eq_of_lt (show D < 65536 by omega)])]

/-- C5 (witness): the amended theorem at `D = 2`, `k = 1`. -/
theorem C5_wit :
    (render_frame (stepT^[1]
        (initT ⟨.cut, .from_left, 2⟩ (some (constProd fA 2)) (some (constProd fB 2)) none))).1.result
      = some (.simple fB) :=
  (C5_thm 2 1 2 2 fA fB .from_left none (by omega) (by omega) (by omega) (by omega)).1

/-! ## C4: D frames then exhaustion -/

/-- When both children supplied a frame, `compose` returns a frame for every
transition type. -/
theorem compose_both_ne_none (info : TransitionInfo) (cur : Nat) (d g : FrameData) :
    (compose info cur (some d) (some g)).result ≠ none := by
  by_cases h : info.type = .cut
  · simp [compose, h]
  · simp [compose, h]

/-- C4 (amended): for `1 ≤ D ≤ 65535` and children that always return
frames, each of the first D calls returns a frame and the (D+1)-th call
returns the exhausted sentinel.  (For D ≥ 65536 the claim fails: the 16-bit
counter wraps, see the counterexample.) -/
theorem C4_thm (D n m : Nat) (f g : FrameData) (ty : TransitionType)
    (dir : TransitionDirection) (fac : Option Nat)
    (hD1 : 1 ≤ D) (hD : D ≤ 65535) (hn : D ≤ n) (hm : D ≤ m) :
    (∀ k, k < D →
      (render_frame (stepT^[k]
          (initT ⟨ty, dir, D⟩ (some (constProd f n)) (some (constProd g m)) fac))).1.result
        ≠ none)
    ∧ (render_frame (stepT^[D]
        (initT ⟨ty, dir, D⟩ (some (constProd f n)) (some (constProd g m)) fac))).1.result
      = none := by
  constructor
  · intro k hk
    rw [run_const ⟨ty, dir, D⟩ f g fac n m k (by omega) (by omega)
      (fun j hj => by rw [Nat.mod_eq_of_lt (show j < 65536 by omega)]; show j < D; omega)]
    rw [render_frame_active _ (show k % 65536 < D by rw [Nat.mod_eq_of_lt (by omega)]; omega)]
    rw [show n - k = (n - k - 1) + 1 by omega, show m - k = (m - k - 1) + 1 by omega]
    simp only [render_child, renderP_const]
    exact compose_both_ne_none _ _ _ _
  · rw [run_const ⟨ty, dir, D⟩ f g fac n m D (by omega) (by omega)
      (fun j hj => by rw [Nat.mod_eq_of_lt (show j < 65536 by omega)]; show j < D; omega)]
    rw [render_frame_exhausted _ (show D ≤ D % 65536 by
      rw [Nat.mod_eq_of_lt (show D < 65536 by omega)])]

/-- C4 (witness): the amended theorem at `D = 3` (mix), checking call 2 and
the exhausting call 3. -/
theorem C4_wit :
    (render_frame (stepT^[2]
        (initT ⟨.mix, .from_left, 3⟩ (some (constProd fA 3)) (some (constProd fB 3)) none))).1.result
      ≠ none
    ∧ (render_frame (stepT^[3]
        (initT ⟨.mix, .from_left, 3⟩ (some (constProd fA 3)) (some (constProd fB 3)) none))).1.result
      = none :=
  ⟨(C4_thm 3 3 3 fA fB .mix .from_left none (by omega) (by omega) (by omega) (by omega)).1 2
      (by omega),
   (C4_thm 3 3 3 fA fB .mix .from_left none (by omega) (by omega) (by omega) (by omega)).2⟩

/-- C4 (counterexample): with `duration = 65536` (the spec allows any
positive duration) the call with index D = 65536 — which the claim says
returns the exhausted sentinel — still returns a frame, because the
`unsigned short` counter has wrapped to 0. -/
theorem C4_cex :
    (render_frame (stepT^[65536]
        (initT ⟨.mix, .from_left, 65536⟩
          (some (constProd fA 65537)) (some (constProd fB 65537)) none))).1.result
      ≠ none := by
  rw [run_const ⟨.mix, .from_left, 65536⟩ fA fB none 65537 65537 65536 (by omega) (by omega)
    (fun j hj => show j % 65536 < 65536 from Nat.mod_lt j (by omega))]
  rw [render_frame_active _ (show 65536 % 65536 < 65536 by norm_num)]
  rw [show (65537 : Nat) - 65536 = 0 + 1 by norm_num]
  simp only [render_child, renderP_const]
  exact compose_both_ne_none _ _ _ _

/-! ## C3: exhaustion is only as permanent as the 16-bit counter -/

/-- C3 (amended): once the counter has reached the duration, every
subsequent call returns the exhausted sentinel — but only while the 16-bit
counter has not wrapped (`current_frame + j < 65536`): exhaustion is not
unbounded. -/
theorem C3_thm (s : TransitionState) (j : Nat)
    (hd : s.info.duration ≤ s.current_frame) (hj : s.current_frame + j < 65536) :
    (render_frame (stepT^[j] s)).1.result = none := by
  rw [iterate_exhausted j s hd hj]
  rw [render_frame_exhausted { s with current_frame := s.current_frame + j }
    (show s.info.duration ≤ s.current_frame + j by omega)]

/-- C3 (witness): the amended theorem on a concrete exhausted state. -/
theorem C3_wit :
    (render_frame (stepT^[5]
        (⟨7, ⟨.mix, .from_left, 3⟩, some emptyChild, none, none⟩ : TransitionState))).1.result
      = none :=
  C3_thm ⟨7, ⟨.mix, .from_left, 3⟩, some emptyChild, none, none⟩ 5
    (show (3 : Nat) ≤ 7 by omega) (show 7 + 5 < 65536 by omega)

/-- C3 (counterexample): duration 1; after the first frame the transition is
exhausted, yet the 65536-th subsequent call (when the `unsigned short`
counter has wrapped to 0) returns a frame again, refuting "every subsequent
render_frame call (with no bound on how many) returns the exhausted
sentinel". -/
theorem C3_cex :
    (render_frame (stepT^[65536]
        (initT ⟨.cut, .from_left, 1⟩
          (some (constProd fA 2)) (some (constProd fB 2)) none))).1.result
      ≠ none := by
  have h0 : stepT (initT ⟨.cut, .from_left, 1⟩
        (some (constProd fA 2)) (some (constProd fB 2)) none)
      = ⟨1, ⟨.cut, .from_left, 1⟩, some (constProd fA 1), some (constProd fB 1), none⟩ := rfl
  have h2 : stepT^[65534]
        (⟨1, ⟨.cut, .from_left, 1⟩, some (constProd fA 1), some (constProd fB 1), none⟩
          : TransitionState)
      = ⟨65535, ⟨.cut, .from_left, 1⟩, some (constProd fA 1), some (constProd fB 1), none⟩ := by
    rw [iterate_exhausted 65534 _ (show (1 : Nat) ≤ 1 by omega)
      (show 1 + 65534 < 65536 by omega)]
  have h3 : stepT (⟨65535, ⟨.cut, .from_left, 1⟩,
        some (constProd fA 1), some (constProd fB 1), none⟩ : TransitionState)
      = ⟨0, ⟨.cut, .from_left, 1⟩, some (constProd fA 1), some (constProd fB 1), none⟩ := rfl
  have h4 : (render_frame (⟨0, ⟨.cut, .from_left, 1⟩,
        some (constProd fA 1), some (constProd fB 1), none⟩ : TransitionState)).1.result
      = some (.simple fB) := rfl
  rw [show (65536 : Nat) = 65534 + 1 + 1 by norm_num]
  rw [Function.iterate_succ_apply, h0, Function.iterate_succ_apply', h2, h3, h4]
  simp

/-! ## C8: child failure is absorbed -/

/-- A transition whose dest child raises on its first call while the source
still has frames; used to show that after a dest failure the remaining
source child is not composited. -/
def destRaiseEx : TransitionState :=
  initT ⟨.mix, .from_left, 3⟩ (some (.mk [.raise] none none none))
    (some (constProd fB 3)) none

/-- C8 (counterexample): the dest child raises on tick 0, so it is detached;
on tick 1 the remaining source child still yields a frame, yet the call
returns absent rather than a composite of the remaining child, refuting
"the transition continues compositing the remaining child for the rest of
its duration" for a raising dest. -/
theorem C8_cex :
    (stepT destRaiseEx).dest = none
    ∧ (render_child (stepT destRaiseEx).factory (stepT destRaiseEx).source).1 = some fB
    ∧ (render_frame (stepT destRaiseEx)).1.result = none :=
  ⟨rfl, rfl, rfl⟩

/-- C8 (amended): a child whose `render_frame` raises is not propagated: the
wrapper returns no frame and sets that child to absent (conjunct 1); an
absent child renders to nothing (conjunct 2) and stays absent across ticks
(conjuncts 3-4); a raising source, resp. dest, is detached by the tick
(conjuncts 5-6).  Only when the **source** is the absent side does the
transition keep compositing the remaining dest child (conjunct 7); when the
**dest** is absent every subsequent non-cut call returns absent and the
remaining source child is not composited (conjunct 8). -/
theorem C8_thm :
    (∀ (fac : Option Nat) (rest : List RItem) (fol : Option ChildProducer)
        (i : Option (Option Nat)) (l : Option ChildProducer),
      renderP fac (.mk (.raise :: rest) fol i l) = (none, none))
    ∧ (∀ fac : Option Nat, render_child fac none = (none, none))
    ∧ (∀ s : TransitionState, s.source = none → (stepT s).source = none)
    ∧ (∀ s : TransitionState, s.dest = none → (stepT s).dest = none)
    ∧ (∀ (s : TransitionState) (rest : List RItem) (fol : Option ChildProducer)
        (i : Option (Option Nat)) (l : Option ChildProducer),
      s.source = some (.mk (.raise :: rest) fol i l) →
      s.current_frame < s.info.duration → (stepT s).source = none)
    ∧ (∀ (s : TransitionState) (rest : List RItem) (fol : Option ChildProducer)
        (i : Option (Option Nat)) (l : Option ChildProducer),
      s.dest = some (.mk (.raise :: rest) fol i l) →
      s.current_frame < s.info.duration → (stepT s).dest = none)
    ∧ (∀ (s : TransitionState) (d : FrameData), s.source = none →
      s.info.type ≠ .cut → s.current_frame < s.info.duration →
      (render_child s.factory s.dest).1 = some d →
      ∃ d', (render_frame s).1.result = some (.composite [d']))
    ∧ (∀ s : TransitionState, s.dest = none → s.info.type ≠ .cut →
      s.current_frame < s.info.duration → (render_frame s).1.result = none) := by
  refine ⟨fun fac rest fol i l => rfl, fun fac => rfl, ?_, ?_, ?_, ?_, ?_, ?_⟩
  · intro s hs
    unfold stepT
    by_cases h : s.info.duration ≤ s.current_frame
    · rw [render_frame_exhausted s h]
      exact hs
    · rw [render_frame_active s (by omega)]
      rw [hs]
      rfl
  · intro s hs
    unfold stepT
    by_cases h : s.info.duration ≤ s.current_frame
    · rw [render_frame_exhausted s h]
      exact hs
    · rw [render_frame_active s (by omega)]
      rw [hs]
      rfl
  · intro s rest fol i l hs hact
    unfold stepT
    rw [render_frame_active s hact, hs]
    rfl
  · intro s rest fol i l hs hact
    unfold stepT
    rw [render_frame_active s hact, hs]
    rfl
  · intro s d hs hcut hact hd
    rw [render_frame_active s hact, hs, hd]
    rcases htype : s.info.type with _ | _ | _ | _ | _
    · exact absurd htype hcut
    all_goals rcases hdir : s.info.direction with _ | _ <;>
      simp [compose, applyTransform, htype, hdir, render_child]
  · intro s hd hcut hact
    rw [render_frame_active s hact, hd]
    simp [compose, hcut, render_child]

/-- C8 (witness): the amended theorem applied to a raising child, a tick
with a raising source, a tick with a raising dest, a source-absent tick
(which still composites the dest), and a dest-absent tick (which returns
absent). -/
theorem C8_wit :
    renderP none (.mk (.raise :: []) none none none) = (none, none)
    ∧ (stepT (initT ⟨.mix, .from_left, 5⟩ (some (constProd fA 3))
        (some (.mk [.raise] none none none)) none)).source = none
    ∧ (stepT (⟨0, ⟨.mix, .from_left, 5⟩, some (.mk [.raise] none none none),
        some (constProd fB 3), none⟩ : TransitionState)).dest = none
    ∧ (∃ d', (render_frame (⟨1, ⟨.mix, .from_left, 5⟩,
        some (constProd fA 2), none, none⟩ : TransitionState)).1.result
          = some (.composite [d']))
    ∧ (render_frame (⟨1, ⟨.mix, .from_left, 5⟩, none, some (constProd fB 2), none⟩
        : TransitionState)).1.result = none :=
  ⟨C8_thm.1 none [] none none none,
   C8_thm.2.2.2.2.1 (initT ⟨.mix, .from_left, 5⟩ (some (constProd fA 3))
       (some (.mk [.raise] none none none)) none) [] none none none rfl
     (show (0 : Nat) < 5 by omega),
   C8_thm.2.2.2.2.2.1 ⟨0, ⟨.mix, .from_left, 5⟩, some (.mk [.raise] none none none),
       some (constProd fB 3), none⟩ [] none none none rfl
     (show (0 : Nat) < 5 by omega),
   C8_thm.2.2.2.2.2.2.1 ⟨1, ⟨.mix, .from_left, 5⟩, some (constProd fA 2), none, none⟩ fA rfl
     (show TransitionType.mix ≠ .cut by simp) (show (1 : Nat) < 5 by omega) rfl,
   C8_thm.2.2.2.2.2.2.2 ⟨1, ⟨.mix, .from_left, 5⟩, none, some (constProd fB 2), none⟩ rfl
     (show TransitionType.mix ≠ .cut by simp) (show (1 : Nat) < 5 by omega)⟩

/-! ## C9: composite structure and ordering -/

/-- C9: on a non-cut call before exhaustion: an absent dest frame makes the
call return absent; a present dest with absent source yields a composite
containing only the dest frame (same payload, dest-volume-scaled audio of
that very frame); with both present the composite holds the source frame
first (back) and the dest frame second (front), the back element carrying
the source frame's payload and its audio scaled by `256 - v`, the front
element the dest frame's payload and its audio scaled by `v`. -/
theorem C9_thm (s : TransitionState) (hcut : s.info.type ≠ .cut)
    (hact : s.current_frame < s.info.duration) :
    ((render_child s.factory s.dest).1 = none → (render_frame s).1.result = none)
    ∧ (∀ d, (render_child s.factory s.dest).1 = some d →
        (render_child s.factory s.source).1 = none →
        ∃ d', (render_frame s).1.result = some (.composite [d'])
          ∧ d'.payload = d.payload
          ∧ d'.audio = (set_volume d (volume256 ((s.current_frame + 1) % 65536)
              s.info.duration)).audio)
    ∧ (∀ d sf, (render_child s.factory s.dest).1 = some d →
        (render_child s.factory s.source).1 = some sf →
        ∃ s' d', (render_frame s).1.result = some (.composite [s', d'])
          ∧ s'.payload = sf.payload
          ∧ s'.audio = (set_volume sf (256 - volume256 ((s.current_frame + 1) % 65536)
              s.info.duration)).audio
          ∧ d'.payload = d.payload
          ∧ d'.audio = (set_volume d (volume256 ((s.current_frame + 1) % 65536)
              s.info.duration)).audio) := by
  refine ⟨?_, ?_, ?_⟩
  · intro hd
    rw [render_frame_active s hact, hd]
    simp [compose, hcut]
  · intro d hd hs
    rw [render_frame_active s hact, hd, hs]
    rcases htype : s.info.type with _ | _ | _ | _ | _
    · exact absurd htype hcut
    all_goals rcases hdir : s.info.direction with _ | _ <;>
      simp [compose, applyTransform, htype, hdir, set_volume]
  · intro d sf hd hs
    rw [render_frame_active s hact, hd, hs]
    rcases htype : s.info.type with _ | _ | _ | _ | _
    · exact absurd htype hcut
    all_goals rcases hdir : s.info.direction with _ | _ <;>
      simp [compose, applyTransform, htype, hdir, set_volume] <;>
      exact ⟨_, _, ⟨rfl, rfl⟩, rfl, rfl, rfl, rfl⟩

/-- C9 (witness): the both-present case on a concrete mix state, with the
payload and audio anchors tying the back element to the source frame and
the front element to the dest frame. -/
theorem C9_wit :
    ∃ s' d', (render_frame (initT ⟨.mix, .from_left, 2⟩
        (some (constProd fA 1)) (some (constProd fB 1)) none)).1.result
      = some (.composite [s', d'])
      ∧ s'.payload = fB.payload
      ∧ s'.audio = (set_volume fB (256 - volume256 ((0 + 1) % 65536) 2)).audio
      ∧ d'.payload = fA.payload
      ∧ d'.audio = (set_volume fA (volume256 ((0 + 1) % 65536) 2)).audio :=
  (C9_thm (initT ⟨.mix, .from_left, 2⟩ (some (constProd fA 1)) (some (constProd fB 1)) none)
      (show TransitionType.mix ≠ .cut by simp) (show (0 : Nat) < 2 by omega)).2.2
    fA fB rfl rfl

/-! ## C10: recursive auto-advance inside the per-child render -/

/-- C10: with the dest child exhausted (empty script) and its following also
exhausted, a single per-child render call advances twice — each following is
initialized with the stored factory and given the exhausted producer as its
leading link — and returns the grand-following's frame (conjunct 1); the
transition's `get_following_producer` thereafter returns this advanced
producer (conjunct 2), which differs from the dest supplied at construction
(conjunct 3). -/
theorem C10_thm (fac : Option Nat) (f : FrameData) (r2 : List RItem)
    (i2 i1 i0 : Option (Option Nat)) (l2 l1 l0 : Option ChildProducer)
    (s : TransitionState)
    (hd : s.dest = some (.mk []
      (some (.mk [] (some (.mk (.frame f :: r2) none i2 l2)) i1 l1)) i0 l0))
    (hfac : s.factory = fac) (hact : s.current_frame < s.info.duration) :
    renderP fac (.mk []
        (some (.mk [] (some (.mk (.frame f :: r2) none i2 l2)) i1 l1)) i0 l0)
      = (some f, some (.mk r2 none (some fac)
          (some (.mk [] (some (.mk (.frame f :: r2) none i2 l2)) (some fac)
            (some (.mk []
              (some (.mk [] (some (.mk (.frame f :: r2) none i2 l2)) i1 l1)) i0 l0))))))
    ∧ get_following_producer (stepT s)
      = some (.mk r2 none (some fac)
          (some (.mk [] (some (.mk (.frame f :: r2) none i2 l2)) (some fac)
            (some (.mk []
              (some (.mk [] (some (.mk (.frame f :: r2) none i2 l2)) i1 l1)) i0 l0)))))
    ∧ (r2 ≠ [] → get_following_producer (stepT s) ≠ s.dest) := by
  have h1 : renderP fac (ChildProducer.mk []
        (some (.mk [] (some (.mk (.frame f :: r2) none i2 l2)) i1 l1)) i0 l0)
      = (some f, some (.mk r2 none (some fac)
          (some (.mk [] (some (.mk (.frame f :: r2) none i2 l2)) (some fac)
            (some (.mk []
              (some (.mk [] (some (.mk (.frame f :: r2) none i2 l2)) i1 l1)) i0 l0)))))) := rfl
  have h2 : get_following_producer (stepT s)
      = some (.mk r2 none (some fac)
          (some (.mk [] (some (.mk (.frame f :: r2) none i2 l2)) (some fac)
            (some (.mk []
              (some (.mk [] (some (.mk (.frame f :: r2) none i2 l2)) i1 l1)) i0 l0))))) := by
    unfold get_following_producer stepT
    rw [render_frame_active s hact]
    show (render_child s.factory s.dest).2 = _
    rw [hd, hfac]
    show (renderP fac (ChildProducer.mk []
      (some (.mk [] (some (.mk (.frame f :: r2) none i2 l2)) i1 l1)) i0 l0)).2 = _
    rw [h1]
  refine ⟨h1, h2, ?_⟩
  intro hr2 heq
  rw [h2, hd, Option.some.injEq] at heq
  injection heq with hscript hrest1 hrest2 hrest3
  exact hr2 hscript

/-- C10 (witness): the theorem on a concrete two-deep exhausted chain with
factory 7. -/
theorem C10_wit :
    get_following_producer (stepT (⟨0, ⟨.mix, .from_left, 1⟩,
        some (.mk [] (some (.mk []
          (some (.mk [.frame fA, .frame fB] none none none)) none none)) none none),
        none, some 7⟩ : TransitionState))
      = some (.mk [.frame fB] none (some (some 7))
          (some (.mk [] (some (.mk [.frame fA, .frame fB] none none none)) (some (some 7))
            (some (.mk [] (some (.mk []
              (some (.mk [.frame fA, .frame fB] none none none)) none none)) none none))))) :=
  (C10_thm (some 7) fA [.frame fB] none none none none none none
      ⟨0, ⟨.mix, .from_left, 1⟩,
        some (.mk [] (some (.mk []
          (some (.mk [.frame fA, .frame fB] none none none)) none none)) none none),
        none, some 7⟩
      rfl rfl (show (0 : Nat) < 1 by omega)).2.1

/-- C2 (witness): the amended iff applied to an absent dest. -/
theorem C2_wit :
    mkTransition none ⟨.mix, .from_left, 3⟩ = .error .invalidArgument :=
  (C2_thm none ⟨.mix, .from_left, 3⟩).mpr rfl
